import Mathlib

/-!
Shallow embedding of the two source files of this repository:

* `src/middleware.py` — `LoggingMiddleware.dispatch`, a timing/logging
  middleware hook.  The wall clock and the downstream pipeline are modelled
  by threading an abstract world state `σ` through the continuation, with a
  view `now : σ → ℚ` giving the value `time.time()` reads in that state.
  A raised exception is an `Except.error`; the printed log lines are
  returned alongside the result.

* `src/test_manual.py` — a manual probe script for a `/summaries` endpoint.
  Each `print` statement of the script is one constructor of an output-line
  type; the HTTP call's outcome (response, connection error, or other
  exception) is an explicit parameter.
-/

/-- A request, exposing the URL path (`request.url.path`). -/
structure Request where
  path : String
deriving DecidableEq, Repr

/-- A response, exposing the status code read by the middleware and an
opaque body. -/
structure Response where
  status_code : Nat
  body : String
deriving DecidableEq, Repr

/-- The decimal digit character for `d < 10` (`Char.ofNat (48 + d)`). -/
def digitChar (d : Nat) : Char := Char.ofNat (48 + d)

/-- Render `m < 100` as exactly two decimal digit characters. -/
def twoDigits (m : Nat) : String := String.mk [digitChar (m / 10), digitChar (m % 10)]

/-- Render a nonnegative count of hundredths as a decimal numeral with
exactly two digits after the point. -/
def fmtHundredths (m : Nat) : String :=
  toString (m / 100) ++ "." ++ twoDigits (m % 100)

/-- Model of Python's `f"{q:.2f}"`: round to the nearest hundredth and
print with exactly two digits after the decimal point. -/
def formatFixed2 (q : ℚ) : String :=
  let n : ℤ := ⌊q * 100 + 1/2⌋
  if n < 0 then "-" ++ fmtHundredths (Int.toNat (-n)) else fmtHundredths n.toNat

/-- The elapsed time in milliseconds, `(time.time() - start_time) * 1000`
(src/middleware.py line 66). -/
def execution_time_ms (start_time end_time : ℚ) : ℚ :=
  (end_time - start_time) * 1000

/-- The log line printed by `LoggingMiddleware.dispatch`
(src/middleware.py lines 74–78). -/
def logLine (request_path : String) (ms : ℚ) (status_code : Nat) : String :=
  "[LOG] Path: " ++ request_path ++ " | Execution Time: " ++ formatFixed2 ms
    ++ "ms | Status: " ++ toString status_code

/-- Model of `LoggingMiddleware.dispatch` (src/middleware.py lines 37–80).

`s0` is the world state on entry; `now` is what `time.time()` reads in a
given world state; `call_next` runs the rest of the pipeline, either
raising an exception or returning the response together with the world
state at its completion.  The second component of the result is the list
of lines printed by the `print` call. -/
def dispatch {σ ε : Type} (now : σ → ℚ) (request : Request)
    (call_next : Request → σ → Except ε (Response × σ)) (s0 : σ) :
    Except ε (Response × σ) × List String :=
  let request_path := request.path
  let start_time := now s0
  match call_next request s0 with
  | .error e => (.error e, [])
  | .ok (response, s1) =>
    let ms := execution_time_ms start_time (now s1)
    let status_code := response.status_code
    (.ok (response, s1), [logLine request_path ms status_code])

/-! ## Embedding of `src/test_manual.py` -/

/-- Python's `str.split()` with no argument: split on runs of whitespace
and drop empty pieces. -/
def pySplit (s : String) : List String :=
  (s.split fun c => c.isWhitespace).filter fun w => w ≠ ""

/-- A JSON value, as far as the probe script inspects one. -/
inductive JsonVal where
  | str (s : String)
  | num (n : Int)
deriving DecidableEq, Repr

/-- The body of an HTTP response: either a JSON object (`response.json()`
succeeds, yielding key/value pairs) or text that is not valid JSON
(`response.json()` raises).  `raw` is `response.text` in both cases. -/
inductive JsonBody where
  | obj (fields : List (String × JsonVal)) (raw : String)
  | invalid (raw : String)
deriving DecidableEq, Repr

/-- Accessor for `response.text`. -/
def JsonBody.rawText : JsonBody → String
  | .obj _ raw => raw
  | .invalid raw => raw

/-- The outcome of one `requests.post` call: an HTTP response with a
status code and body, a `requests.exceptions.ConnectionError`, or any
other exception (carrying its message). -/
inductive HttpOutcome where
  | response (status : Nat) (body : JsonBody)
  | connectionError (msg : String)
  | otherError (msg : String)
deriving DecidableEq, Repr

/-- One printed line of the probe script; each constructor corresponds to
one `print` statement (or f-string template) in `src/test_manual.py`. -/
inductive Line where
  | text (s : String)
  | statusCode (status : Nat)
  | successBanner
  | summaryLine (summary : String)
  | summaryWordCount (n : Nat)
  | apiWordCount (v : JsonVal)
  | timestampLine (v : JsonVal)
  | correctExactly10
  | errorExpected10Got (got : Nat)
  | correctAll10
  | correctAllWords (n : Nat)
  | errorExpectedGot (expected got : Nat)
  | errorNon200 (status : Nat)
  | responseText (raw : String)
  | connectionErrorLine
  | connectionErrorHint
  | genericError (msg : String)
  | correctValidation422
  | unexpectedStatus (status : Nat)
deriving DecidableEq, Repr

/-- Does this line carry one of the script's `✅ Correct` success
markers? -/
def Line.isCorrectMarker : Line → Bool
  | .correctExactly10 => true
  | .correctAll10 => true
  | .correctAllWords _ => true
  | .correctValidation422 => true
  | _ => false

/-- Dictionary lookup `data[k]`, raising `KeyError` when the key is absent
(src/test_manual.py lines 30, 36, 37). -/
def getKey (fields : List (String × JsonVal)) (k : String) : Except String JsonVal :=
  match fields.lookup k with
  | some v => .ok v
  | none => .error ("KeyError: " ++ k)

/-- Coercion used by `summary.split()`: it requires `summary` to be a
string; any other JSON type raises an `AttributeError`
(src/test_manual.py line 31). -/
def asString : JsonVal → Except String String
  | .str s => .ok s
  | .num _ => .error "AttributeError: split"

/-- Model of `response.json()` (src/test_manual.py line 29): raises when
the body is not valid JSON. -/
def responseJson : JsonBody → Except String (List (String × JsonVal))
  | .obj fields _ => .ok fields
  | .invalid _ => .error "JSONDecodeError"

/-- The word-count verification branch of `test_summaries`
(src/test_manual.py lines 39–54): compares the summary's split length with
the expectation derived from the input's split length and prints exactly
one verdict line. -/
def verdictLine (text summary : String) : Line :=
  let n := (pySplit text).length
  let word_count := (pySplit summary).length
  if 10 < n then
    if word_count = 10 then .correctExactly10 else .errorExpected10Got word_count
  else if n = 10 then
    if word_count = 10 then .correctAll10 else .errorExpected10Got word_count
  else
    if word_count = n then .correctAllWords word_count else .errorExpectedGot n word_count

/-- The body of `test_summaries`'s 200 branch (src/test_manual.py lines
29–54): the lines printed before any exception, together with the raised
exception when one occurs mid-branch. -/
def okBranch (text : String) (body : JsonBody) : List Line × Option String :=
  match responseJson body with
  | .error e => ([], some e)
  | .ok data =>
    match getKey data "summary" with
    | .error e => ([], some e)
    | .ok summaryV =>
      match asString summaryV with
      | .error e => ([], some e)
      | .ok summary =>
        let word_count := (pySplit summary).length
        let pre := [Line.successBanner, Line.summaryLine summary,
                    Line.summaryWordCount word_count]
        match getKey data "word_count" with
        | .error e => (pre, some e)
        | .ok wcField =>
          match getKey data "timestamp" with
          | .error e => (pre ++ [Line.apiWordCount wcField], some e)
          | .ok tsField =>
            (pre ++ [Line.apiWordCount wcField, Line.timestampLine tsField,
                     verdictLine text summary], none)

/-- The `'='*60` separator line. -/
def sepLine : Line := Line.text (String.mk (List.replicate 60 '='))

/-- Model of `test_summaries` (src/test_manual.py lines 11–63), as a
function of the outcome of its `requests.post` call.  Exceptions raised inside the
`try` block are caught: a `ConnectionError` prints the two hint lines,
anything else prints the generic error line; either way the function
returns its printed lines. -/
def test_summaries (text description : String) (outcome : HttpOutcome) : List Line :=
  let header := [sepLine, Line.text ("Test: " ++ description), sepLine,
                 Line.text ("Input text: " ++ text),
                 Line.text ("Input word count: " ++ toString (pySplit text).length)]
  header ++
  match outcome with
  | .connectionError _ => [Line.connectionErrorLine, Line.connectionErrorHint]
  | .otherError msg => [Line.genericError msg]
  | .response status body =>
    [Line.statusCode status] ++
    if status = 200 then
      match okBranch text body with
      | (lines, some e) => lines ++ [Line.genericError e]
      | (lines, none) => lines
    else
      [Line.errorNon200 status, Line.responseText body.rawText]

/-- Test 7 of `main` (src/test_manual.py lines 108–125): POST an empty
string, expect a 422.  The `try` block's only handler is the generic
`except Exception`, so a connection error is also caught generically. -/
def emptyStringTest (outcome : HttpOutcome) : List Line :=
  [sepLine, Line.text "Test: Empty string (should return validation error)", sepLine] ++
  match outcome with
  | .response status body =>
    [Line.statusCode status] ++
    (if status = 422 then [Line.correctValidation422]
     else [Line.unexpectedStatus status]) ++
    [Line.responseText body.rawText]
  | .connectionError msg => [Line.genericError msg]
  | .otherError msg => [Line.genericError msg]

/-- The literal input text of test case `i` (src/test_manual.py lines
73–106). -/
def testText : Fin 6 → String
  | 0 => "This is a test sentence with exactly fifteen words in total for testing purposes"
  | 1 => "one two three four five six seven eight nine ten"
  | 2 => "Hello world from the API"
  | 3 => "The quick brown fox jumps over the lazy dog and then runs through the forest to find food and water for survival in the wilderness during the cold winter months when resources are scarce and animals must adapt"
  | 4 => "  word1   word2    word3  word4  word5  word6  word7  word8  word9  word10  word11  word12  "
  | 5 => "Hello"

/-- The literal description of test case `i`. -/
def testDescription : Fin 6 → String
  | 0 => "More than 10 words (should return exactly 10)"
  | 1 => "Exactly 10 words (should return all 10)"
  | 2 => "Less than 10 words (should return all words)"
  | 3 => "Long paragraph (should return first 10 words)"
  | 4 => "Multiple whitespaces (should handle correctly)"
  | 5 => "Single word"

/-- Model of `main` (src/test_manual.py lines 66–129): runs the six
`test_summaries` cases in order, then the empty-string case, then prints
the closing banner.  The script never calls `sys.exit`, so the process
exit code is 0; it is returned as the second component. -/
def mainRun (outcomes : Fin 7 → HttpOutcome) : List Line × Nat :=
  let banner := [sepLine, Line.text "Testing POST /summaries Endpoint", sepLine]
  let closing := [sepLine, Line.text "Testing Complete!", sepLine]
  (banner
    ++ test_summaries (testText 0) (testDescription 0) (outcomes 0)
    ++ test_summaries (testText 1) (testDescription 1) (outcomes 1)
    ++ test_summaries (testText 2) (testDescription 2) (outcomes 2)
    ++ test_summaries (testText 3) (testDescription 3) (outcomes 3)
    ++ test_summaries (testText 4) (testDescription 4) (outcomes 4)
    ++ test_summaries (testText 5) (testDescription 5) (outcomes 5)
    ++ emptyStringTest (outcomes 6)
    ++ closing, 0)

/-- The seven per-case header lines `Test: <description>`, in the order
`main` runs them. -/
def headerLines : List Line :=
  [Line.text ("Test: " ++ testDescription 0),
   Line.text ("Test: " ++ testDescription 1),
   Line.text ("Test: " ++ testDescription 2),
   Line.text ("Test: " ++ testDescription 3),
   Line.text ("Test: " ++ testDescription 4),
   Line.text ("Test: " ++ testDescription 5),
   Line.text "Test: Empty string (should return validation error)"]

/-! ## Two concurrent `dispatch` invocations

`dispatch` keeps `request_path`, `start_time`, the response and the
computed duration in locals of a single invocation; the only resource two
concurrent invocations share is the log sink (stdout).  The model below
makes that explicit: each in-flight request is a small program over its
own local state (`TaskPC`), and a scheduler interleaves the two programs'
steps over the shared log list. -/

/-- The request-scoped data of one in-flight request: its path, the wall
clock value `time.time()` reads at its start-timestamp step (`t0`) and at
its end-timestamp step (`t1`), and the status code of its response. -/
structure TaskParams where
  path : String
  t0 : ℚ
  t1 : ℚ
  status : Nat

/-- The local control state of one `dispatch` invocation:
before recording the start time, after the continuation returned (holding
the stack-local `start_time` and the response's status code), or done. -/
inductive TaskPC where
  | start
  | returned (start_time : ℚ) (status_code : Nat)
  | done (line : String)
deriving DecidableEq

/-- Has this invocation finished? -/
def TaskPC.isDone : TaskPC → Bool
  | .done _ => true
  | _ => false

/-- One step of a single `dispatch` invocation over the shared log list:
first record the start time and run the continuation, then compute the
duration from the locals and append the log line. -/
def taskStep (p : TaskParams) : TaskPC → List String → TaskPC × List String
  | .start, logs => (.returned p.t0 p.status, logs)
  | .returned st sc, logs =>
    let line := logLine p.path (execution_time_ms st p.t1) sc
    (.done line, logs ++ [line])
  | .done l, logs => (.done l, logs)

/-- The shared state of two concurrent invocations: each task's local
control state plus the shared log sink. -/
structure TwoTasks where
  pc1 : TaskPC
  pc2 : TaskPC
  logs : List String

/-- Run the step of the scheduled task (`true` = task 1). -/
def schedStep (p1 p2 : TaskParams) (s : TwoTasks) (choice : Bool) : TwoTasks :=
  if choice then
    let (pc, logs) := taskStep p1 s.pc1 s.logs
    { s with pc1 := pc, logs := logs }
  else
    let (pc, logs) := taskStep p2 s.pc2 s.logs
    { s with pc2 := pc, logs := logs }

/-- Run a whole schedule (an arbitrary interleaving of the two tasks'
steps). -/
def schedRun (p1 p2 : TaskParams) : List Bool → TwoTasks → TwoTasks
  | [], s => s
  | c :: cs, s => schedRun p1 p2 cs (schedStep p1 p2 s c)

/-- The log line request `p` eventually emits: computed from `p`'s own
timestamps and status only. -/
def taskLog (p : TaskParams) : String :=
  logLine p.path (execution_time_ms p.t0 p.t1) p.status

/-- The log lines a task will still append from local state `pc`. -/
def owed (p : TaskParams) : TaskPC → List String
  | .start => [taskLog p]
  | .returned st sc => [logLine p.path (execution_time_ms st p.t1) sc]
  | .done _ => []

/-! ## Claims about the Timing Interceptor -/

/-- C1: when the continuation returns a response, `dispatch` returns
exactly that response object (status code, body and completion state
included), unmodified. -/
theorem C1_dispatch_returns_response_unchanged {σ ε : Type} (now : σ → ℚ)
    (request : Request) (call_next : Request → σ → Except ε (Response × σ))
    (s0 : σ) (response : Response) (s1 : σ)
    (h : call_next request s0 = .ok (response, s1)) :
    (dispatch now request call_next s0).1 = .ok (response, s1) := by
  simp [dispatch, h]

/-- Witness for C1 at a concrete request and continuation. -/
theorem C1_witness :
    ((fun (_ : Request) (t : ℚ) =>
        (Except.ok (⟨200, "ok"⟩, t) : Except Unit (Response × ℚ)))
      ⟨"/summaries"⟩ 0 = .ok (⟨200, "ok"⟩, 0))
    ∧ (dispatch id ⟨"/summaries"⟩
        (fun (_ : Request) (t : ℚ) =>
          (Except.ok (⟨200, "ok"⟩, t) : Except Unit (Response × ℚ))) 0).1
      = .ok (⟨200, "ok"⟩, 0) :=
  ⟨rfl, C1_dispatch_returns_response_unchanged id ⟨"/summaries"⟩ _ 0 ⟨200, "ok"⟩ 0 rfl⟩

/-- C2: instrumenting the world state with an invocation counter, a run of
`dispatch` bumps the counter by exactly one — the continuation is invoked
exactly once — and both the returned response and the end timestamp used
for the duration come from that single completed invocation: the logged
duration is measured from the state after the continuation finished. -/
theorem C2_call_next_invoked_exactly_once
    (f : Request → ℚ → Response × ℚ) (request : Request) (t0 : ℚ) (c : ℕ) :
    dispatch (fun s => s.1) request
      (fun r s => (Except.ok ((f r s.1).1, ((f r s.1).2, s.2 + 1)) :
        Except Unit (Response × (ℚ × ℕ))))
      (t0, c)
    = (.ok ((f request t0).1, ((f request t0).2, c + 1)),
       [logLine request.path (execution_time_ms t0 (f request t0).2)
          (f request t0).1.status_code]) := rfl

/-- C3: when the continuation raises, `dispatch` propagates exactly that
error and prints nothing. -/
theorem C3_error_propagates_no_log {σ ε : Type} (now : σ → ℚ)
    (request : Request) (call_next : Request → σ → Except ε (Response × σ))
    (s0 : σ) (e : ε)
    (h : call_next request s0 = .error e) :
    dispatch now request call_next s0 = (.error e, []) := by
  simp [dispatch, h]

/-- Witness for C3 at a concrete failing continuation. -/
theorem C3_witness :
    ((fun (_ : Request) (_ : ℚ) =>
        (Except.error "boom" : Except String (Response × ℚ)))
      ⟨"/summaries"⟩ 0 = .error "boom")
    ∧ dispatch id ⟨"/summaries"⟩
        (fun (_ : Request) (_ : ℚ) =>
          (Except.error "boom" : Except String (Response × ℚ))) 0
      = (.error "boom", []) :=
  ⟨rfl, C3_error_propagates_no_log id ⟨"/summaries"⟩ _ 0 "boom" rfl⟩

/-- C6: the derived duration in milliseconds is nonnegative whenever the
end timestamp is not earlier than the start timestamp. -/
theorem C6_duration_nonneg (start_time end_time : ℚ)
    (h : start_time ≤ end_time) :
    0 ≤ execution_time_ms start_time end_time := by
  unfold execution_time_ms
  nlinarith

/-- Witness for C6 at concrete timestamps. -/
theorem C6_witness :
    (1 : ℚ) ≤ 3 ∧ 0 ≤ execution_time_ms 1 3 :=
  ⟨by norm_num, C6_duration_nonneg 1 3 (by norm_num)⟩

/-- For a nonnegative value, `formatFixed2` produces a decimal numeral
followed by a point and exactly two digit characters. -/
theorem formatFixed2_nonneg_shape (q : ℚ) (hq : 0 ≤ q) :
    ∃ (k c1 c2 : ℕ), c1 < 10 ∧ c2 < 10 ∧
      formatFixed2 q = toString k ++ "." ++ String.mk [digitChar c1, digitChar c2] := by
  have h0 : (0 : ℤ) ≤ ⌊q * 100 + 1/2⌋ := Int.floor_nonneg.mpr (by positivity)
  refine ⟨(⌊q * 100 + 1/2⌋).toNat / 100,
          (⌊q * 100 + 1/2⌋).toNat % 100 / 10,
          (⌊q * 100 + 1/2⌋).toNat % 100 % 10, by omega, by omega, ?_⟩
  unfold formatFixed2 fmtHundredths twoDigits
  rw [if_neg (not_lt.mpr h0)]

/-- C4: on the continuation's successful return, `dispatch` emits exactly
one log record, namely `logLine` applied to the request's path, the
elapsed milliseconds, and the response's status code — and whenever the
elapsed time is nonnegative, its rendering consists of an integer part,
a point, and exactly two digits. -/
theorem C4_log_format {σ ε : Type} (now : σ → ℚ) (request : Request)
    (call_next : Request → σ → Except ε (Response × σ)) (s0 : σ)
    (response : Response) (s1 : σ)
    (h : call_next request s0 = .ok (response, s1)) :
    (dispatch now request call_next s0).2
      = [logLine request.path (execution_time_ms (now s0) (now s1))
           response.status_code]
    ∧ (0 ≤ execution_time_ms (now s0) (now s1) →
        ∃ (k c1 c2 : ℕ), c1 < 10 ∧ c2 < 10 ∧
          formatFixed2 (execution_time_ms (now s0) (now s1))
            = toString k ++ "." ++ String.mk [digitChar c1, digitChar c2]) :=
  ⟨by simp [dispatch, h, execution_time_ms],
   fun h0 => formatFixed2_nonneg_shape _ h0⟩

/-! ## Claims about the Endpoint Probe Script -/

/-- The verification branch prints a `✅ Correct` marker exactly when the
summary's split length equals `min 10` (input's split length). -/
theorem verdictLine_correct_iff (text summary : String) :
    (verdictLine text summary).isCorrectMarker = true ↔
      (pySplit summary).length = min 10 (pySplit text).length := by
  unfold verdictLine
  dsimp only
  split_ifs with h1 h2 h3 h4 h5 <;>
    simp_all [Line.isCorrectMarker] <;> omega

/-- C5: for a 200 response whose JSON object carries a string `summary`
and the `word_count` and `timestamp` keys, the probe script prints a
success marker if and only if the summary's whitespace-split word count
equals `min 10` (the input text's word count). -/
theorem C5_correct_marker_iff (text description summary raw : String)
    (fields : List (String × JsonVal)) (wcv tsv : JsonVal)
    (h1 : fields.lookup "summary" = some (.str summary))
    (h2 : fields.lookup "word_count" = some wcv)
    (h3 : fields.lookup "timestamp" = some tsv) :
    (∃ l ∈ test_summaries text description
        (.response 200 (.obj fields raw)), l.isCorrectMarker = true)
    ↔ (pySplit summary).length = min 10 (pySplit text).length := by
  rw [← verdictLine_correct_iff text summary]
  have hok : okBranch text (.obj fields raw)
      = ([Line.successBanner, Line.summaryLine summary,
          Line.summaryWordCount (pySplit summary).length]
          ++ [Line.apiWordCount wcv, Line.timestampLine tsv,
              verdictLine text summary], none) := by
    simp [okBranch, responseJson, getKey, h1, h2, h3, asString]
  simp [test_summaries, hok, Line.isCorrectMarker, sepLine]

/-- Witness for C5 at a concrete input and response. -/
theorem C5_witness :
    ([("summary", JsonVal.str "Hello world"),
      ("word_count", JsonVal.num 2),
      ("timestamp", JsonVal.str "t")].lookup "summary"
        = some (.str "Hello world"))
    ∧ ((∃ l ∈ test_summaries "Hello world" "two words"
          (.response 200 (.obj
            [("summary", JsonVal.str "Hello world"),
             ("word_count", JsonVal.num 2),
             ("timestamp", JsonVal.str "t")] "{}")), l.isCorrectMarker = true)
        ↔ (pySplit "Hello world").length = min 10 (pySplit "Hello world").length) :=
  ⟨rfl, C5_correct_marker_iff "Hello world" "two words" "Hello world" "{}"
    _ (JsonVal.num 2) (JsonVal.str "t") rfl rfl rfl⟩

/-- C7: the empty-string test prints the `Correct: Validation error as
expected` marker exactly when the status code is 422; any other status is
reported as unexpected; and the printed lines never depend on the fields
of the response's JSON object (no summary field is required). -/
theorem C7_empty_string_case (status : Nat) (body : JsonBody) :
    (Line.correctValidation422 ∈ emptyStringTest (.response status body)
      ↔ status = 422)
    ∧ (status ≠ 422 →
        Line.unexpectedStatus status ∈ emptyStringTest (.response status body))
    ∧ (∀ (fields fields' : List (String × JsonVal)) (raw : String),
        emptyStringTest (.response status (.obj fields raw))
          = emptyStringTest (.response status (.obj fields' raw))) := by
  refine ⟨?_, ?_, ?_⟩
  · by_cases h : status = 422 <;> simp [emptyStringTest, h, sepLine]
  · intro h
    simp [emptyStringTest, h, sepLine]
  · intro fields fields' raw
    simp [emptyStringTest, JsonBody.rawText]

/-- Witness for C7 at concrete statuses. -/
theorem C7_witness :
    Line.correctValidation422 ∈ emptyStringTest (.response 422 (.invalid "err"))
    ∧ Line.unexpectedStatus 500 ∈ emptyStringTest (.response 500 (.invalid "err")) :=
  ⟨(C7_empty_string_case 422 (.invalid "err")).1.mpr rfl,
   (C7_empty_string_case 500 (.invalid "err")).2.1 (by decide)⟩

/-- Each `test_summaries` call prints its `Test: <description>` header,
whatever the call's outcome. -/
theorem header_sublist_test_summaries (text desc : String) (o : HttpOutcome) :
    List.Sublist [Line.text ("Test: " ++ desc)] (test_summaries text desc o) :=
  List.Sublist.cons _ (List.Sublist.cons₂ _ (List.nil_sublist _))

/-- The empty-string case prints its header, whatever the outcome. -/
theorem header_sublist_emptyStringTest (o : HttpOutcome) :
    List.Sublist [Line.text "Test: Empty string (should return validation error)"]
      (emptyStringTest o) :=
  List.Sublist.cons _ (List.Sublist.cons₂ _ (List.nil_sublist _))

/-- All seven per-case headers appear in `main`'s output in order, for
every assignment of outcomes to the seven HTTP calls. -/
theorem mainRun_headers (outcomes : Fin 7 → HttpOutcome) :
    headerLines.Sublist (mainRun outcomes).1 := by
  unfold mainRun headerLines
  dsimp only
  simp only [List.append_assoc]
  refine List.Sublist.trans ?_ (List.sublist_append_right _ _)
  exact (header_sublist_test_summaries _ _ _).append
    ((header_sublist_test_summaries _ _ _).append
      ((header_sublist_test_summaries _ _ _).append
        ((header_sublist_test_summaries _ _ _).append
          ((header_sublist_test_summaries _ _ _).append
            ((header_sublist_test_summaries _ _ _).append
              ((header_sublist_emptyStringTest _).trans
                (List.sublist_append_left _ _)))))))

/-- C8 counterexample: a connection failure in the empty-string case
(test 7) is caught by that case's bare generic handler — the error is
printed generically and the remediation-hint line never appears, so not
every connection failure is reported distinctly with a hint. -/
theorem C8_counterexample :
    Line.genericError "Connection refused"
        ∈ emptyStringTest (.connectionError "Connection refused")
    ∧ Line.connectionErrorHint
        ∉ emptyStringTest (.connectionError "Connection refused") := by
  decide

/-- C8 (amended): for every assignment of outcomes (success, non-2xx,
connection failure, or any other exception) to the seven HTTP calls,
`main` runs all seven cases in order (each header appears in its fixed
position order) and finishes with exit code 0; in the six
`test_summaries` cases a connection failure prints the distinct
remediation-hint line and any other exception prints the generic error
line, while in the seventh (empty-string) case a connection failure is
caught by the generic handler and printed without the hint — execution
continuing in every case. -/
theorem C8_main_runs_all_cases (outcomes : Fin 7 → HttpOutcome) :
    (mainRun outcomes).2 = 0
    ∧ headerLines.Sublist (mainRun outcomes).1
    ∧ (∀ text desc msg,
        Line.connectionErrorHint ∈ test_summaries text desc (.connectionError msg))
    ∧ (∀ text desc msg,
        Line.genericError msg ∈ test_summaries text desc (.otherError msg))
    ∧ (∀ msg, Line.genericError msg ∈ emptyStringTest (.connectionError msg))
    ∧ (∀ msg, Line.connectionErrorHint ∉ emptyStringTest (.connectionError msg)) := by
  refine ⟨rfl, mainRun_headers outcomes, ?_, ?_, ?_, ?_⟩
  · intro text desc msg
    simp [test_summaries, sepLine]
  · intro text desc msg
    simp [test_summaries, sepLine]
  · intro msg
    simp [emptyStringTest, sepLine]
  · intro msg
    simp [emptyStringTest, sepLine]

/-- C10: a 200 response whose body is not valid JSON, or whose JSON
object lacks `summary`, `word_count` or `timestamp`, makes the 200 branch
raise; the generic handler catches it and prints the generic error line,
and `main` still runs every remaining case. -/
theorem C10_malformed_200_body_caught (text desc raw : String)
    (fields : List (String × JsonVal)) :
    (Line.genericError "JSONDecodeError"
        ∈ test_summaries text desc (.response 200 (.invalid raw)))
    ∧ (∀ e, (okBranch text (.obj fields raw)).2 = some e →
        Line.genericError e
          ∈ test_summaries text desc (.response 200 (.obj fields raw)))
    ∧ (fields.lookup "summary" = none →
        (okBranch text (.obj fields raw)).2 = some ("KeyError: " ++ "summary"))
    ∧ (∀ s, fields.lookup "summary" = some (.str s) →
        fields.lookup "word_count" = none →
        (okBranch text (.obj fields raw)).2 = some ("KeyError: " ++ "word_count"))
    ∧ (∀ s wcv, fields.lookup "summary" = some (.str s) →
        fields.lookup "word_count" = some wcv →
        fields.lookup "timestamp" = none →
        (okBranch text (.obj fields raw)).2 = some ("KeyError: " ++ "timestamp"))
    ∧ headerLines.Sublist (mainRun fun _ => .response 200 (.invalid raw)).1 := by
  refine ⟨?_, ?_, ?_, ?_, ?_, mainRun_headers _⟩
  · simp [test_summaries, okBranch, responseJson, sepLine]
  · intro e he
    rcases hb : okBranch text (.obj fields raw) with ⟨lines, err⟩
    rw [hb] at he
    simp only at he
    subst he
    simp [test_summaries, hb, sepLine]
  · intro h
    simp [okBranch, responseJson, getKey, h]
  · intro s h1 h2
    simp [okBranch, responseJson, getKey, asString, h1, h2]
  · intro s wcv h1 h2 h3
    simp [okBranch, responseJson, getKey, asString, h1, h2, h3]

/-- Witness for C10 at a concrete empty JSON object and an invalid body. -/
theorem C10_witness :
    (([] : List (String × JsonVal)).lookup "summary" = none
      ∧ (okBranch "Hello" (.obj [] "{}")).2 = some ("KeyError: " ++ "summary"))
    ∧ Line.genericError "JSONDecodeError"
        ∈ test_summaries "Hello" "case" (.response 200 (.invalid "oops")) :=
  ⟨⟨rfl, (C10_malformed_200_body_caught "Hello" "case" "{}" []).2.2.1 rfl⟩,
   (C10_malformed_200_body_caught "Hello" "case" "oops" []).1⟩

/-- Invariant of the two-task interleaving: however the scheduler
interleaves the two invocations, a completed run's log is — up to order —
the starting log plus the lines each task still owed at the start. -/
theorem schedRun_logs_perm (p1 p2 : TaskParams) (sched : List Bool) :
    ∀ s : TwoTasks,
      (schedRun p1 p2 sched s).pc1.isDone = true →
      (schedRun p1 p2 sched s).pc2.isDone = true →
      (schedRun p1 p2 sched s).logs.Perm
        (s.logs ++ owed p1 s.pc1 ++ owed p2 s.pc2) := by
  induction sched with
  | nil =>
    intro s h1 h2
    cases hpc1 : s.pc1 <;> cases hpc2 : s.pc2 <;>
      simp_all [schedRun, TaskPC.isDone, owed] <;>
      exact List.Perm.refl _
  | cons c cs ih =>
    intro s h1 h2
    have hrun : schedRun p1 p2 (c :: cs) s
        = schedRun p1 p2 cs (schedStep p1 p2 s c) := rfl
    rw [hrun] at h1 h2 ⊢
    refine (ih _ h1 h2).trans ?_
    cases c
    · cases hpc : s.pc2 <;>
        simp [schedStep, taskStep, owed, taskLog, hpc, List.append_assoc] <;>
        first
          | exact List.Perm.refl _
          | exact List.Perm.append_left _ (@List.perm_append_comm _ [_] _)
    · cases hpc : s.pc1 <;>
        simp [schedStep, taskStep, owed, taskLog, hpc, List.append_assoc] <;>
        first
          | exact List.Perm.refl _
          | exact List.Perm.append_left _ (@List.perm_append_comm _ [_] _)

/-- C9: for any interleaving of two concurrent `dispatch` invocations
(each keeping its path, timestamps and status in request-scoped locals,
sharing only the log sink), a completed run's log holds exactly one line
per request, and each request's line is `taskLog` of that request's own
parameters alone — the other request's processing never changes it. -/
theorem C9_concurrent_requests_isolated (p1 p2 : TaskParams) (sched : List Bool)
    (h1 : (schedRun p1 p2 sched ⟨.start, .start, []⟩).pc1.isDone = true)
    (h2 : (schedRun p1 p2 sched ⟨.start, .start, []⟩).pc2.isDone = true) :
    (schedRun p1 p2 sched ⟨.start, .start, []⟩).logs.Perm
      [taskLog p1, taskLog p2] := by
  have h := schedRun_logs_perm p1 p2 sched ⟨.start, .start, []⟩ h1 h2
  simpa [owed] using h

/-- Witness for C9 at concrete requests and a concrete interleaving. -/
theorem C9_witness :
    ((schedRun ⟨"/a", 0, 1, 200⟩ ⟨"/b", 0, 2, 404⟩ [true, false, true, false]
        ⟨.start, .start, []⟩).pc1.isDone = true)
    ∧ ((schedRun ⟨"/a", 0, 1, 200⟩ ⟨"/b", 0, 2, 404⟩ [true, false, true, false]
        ⟨.start, .start, []⟩).pc2.isDone = true)
    ∧ (schedRun ⟨"/a", 0, 1, 200⟩ ⟨"/b", 0, 2, 404⟩ [true, false, true, false]
        ⟨.start, .start, []⟩).logs.Perm
        [taskLog ⟨"/a", 0, 1, 200⟩, taskLog ⟨"/b", 0, 2, 404⟩] :=
  ⟨rfl, rfl,
   C9_concurrent_requests_isolated ⟨"/a", 0, 1, 200⟩ ⟨"/b", 0, 2, 404⟩
     [true, false, true, false] rfl rfl⟩

/-- Witness for C4 at a concrete request and continuation. -/
theorem C4_witness :
    ((fun (_ : Request) (t : ℚ) =>
        (Except.ok (⟨200, "ok"⟩, t + 1) : Except Unit (Response × ℚ)))
      ⟨"/items"⟩ 0 = .ok (⟨200, "ok"⟩, 0 + 1))
    ∧ (dispatch id ⟨"/items"⟩
        (fun (_ : Request) (t : ℚ) =>
          (Except.ok (⟨200, "ok"⟩, t + 1) : Except Unit (Response × ℚ))) 0).2
      = [logLine "/items" (execution_time_ms (id 0) (id (0 + 1))) 200] :=
  ⟨rfl, (C4_log_format id ⟨"/items"⟩ _ 0 ⟨200, "ok"⟩ (0 + 1) rfl).1⟩
